import Mathlib

/-!
Verification of the status-error core of clarkmcc/apiutils (package errors).

The development shallowly embeds src/errors/errors.go. Go machine integers
that matter are modelled as Int with an explicit reduction to signed 32 bits
where the source converts to int32. Go errors are modelled by the inductive
type Err below, covering the error shapes the package manipulates: a
StatusError (which exposes the Status capability), an UnexpectedObjectError,
a plain error without a wrap chain, and a wrapping error produced by the
standard formatting helper with the wrap directive (which renders a message
around the wrapped error and exposes an unwrap step but no Status method).

The declarations of the Status data model (Status, StatusDetails,
StatusCause, the StatusReason and CauseType string constants) and their wire
field names live in a file of the repository that is not present under src;
they are modelled from the spec (sections 3 and 6) where so marked.
-/

namespace Apiutils

/-- Modelled from the spec: StatusReason values are a closed string
enumeration crossing the wire as strings; the empty string is the Unknown
zero value. The declarations themselves are in the missing types file. -/
def StatusReasonUnknown : String := ""

def StatusReasonNotFound : String := "NotFound"

def StatusReasonAlreadyExists : String := "AlreadyExists"

def StatusReasonConflict : String := "Conflict"

def StatusReasonInvalid : String := "Invalid"

def StatusReasonUnauthorized : String := "Unauthorized"

def StatusReasonForbidden : String := "Forbidden"

def StatusReasonBadRequest : String := "BadRequest"

def StatusReasonTooManyRequests : String := "TooManyRequests"

def StatusReasonServiceUnavailable : String := "ServiceUnavailable"

def StatusReasonMethodNotAllowed : String := "MethodNotAllowed"

def StatusReasonServerTimeout : String := "ServerTimeout"

def StatusReasonInternalError : String := "InternalError"

def StatusReasonTimeout : String := "Timeout"

def StatusReasonRequestEntityTooLarge : String := "RequestEntityTooLarge"

def StatusReasonNotAcceptable : String := "NotAcceptable"

def StatusReasonUnsupportedMediaType : String := "UnsupportedMediaType"

/-- Modelled from the spec: the status field values Success and Failure. -/
def StatusSuccess : String := "Success"

def StatusFailure : String := "Failure"

/-- Modelled from the spec: the cause type for an unexpected server
response, a value of the CauseType string enumeration. -/
def CauseTypeUnexpectedServerResponse : String := "UnexpectedServerResponse"

/-- Modelled from the spec: one structured sub-failure (section 3).
CauseType is a string type, so the type field is a String. -/
structure StatusCause where
  type : String
  message : String
  field : String
deriving DecidableEq

/-- Modelled from the spec: structured context for a failure (section 3).
The causes sequence is a list (a nil and an empty Go slice coincide in this
model, matching the invariant that both mean no causes). RetryAfterSeconds
is int32 in Go, modelled as Int holding the int32 value. -/
structure StatusDetails where
  name : String
  uid : String
  causes : List StatusCause
  retryAfterSeconds : Int
deriving DecidableEq

/-- Modelled from the spec: the outcome of an operation (section 3). Code
is int32 in Go, modelled as Int holding the int32 value. -/
structure Status where
  status : String
  code : Int
  reason : String
  message : String
  details : Option StatusDetails
deriving DecidableEq

/-- Reduction of an Int to the signed 32-bit value Go obtains from an int32
conversion: two-complement wraparound into the interval from -2^31 to
2^31 - 1. -/
def toInt32 (n : Int) : Int :=
  (n + 2147483648) % 4294967296 - 2147483648

/-- Model of the Go error values the package manipulates. statusError is a
StatusError pointer (it exposes the Status capability and renders the
message field); unexpectedObjectError is the UnexpectedObjectError value
with the rendering of its object; basic is any error without an unwrap
method and without the Status capability; wrap is the error built by the
formatting helper with the wrap directive: its message is the given text
followed by the rendering of the wrapped error, it has an unwrap method and
no Status method. -/
inductive Err where
  | statusError (s : Status) : Err
  | unexpectedObjectError (objText : String) : Err
  | basic (msg : String) : Err
  | wrap (pre : String) (inner : Err) : Err
deriving DecidableEq

/-- The Error method of each modelled error value. -/
def errRender : Err → String
  | .statusError s => s.message
  | .unexpectedObjectError o => "unexpected object: " ++ o
  | .basic m => m
  | .wrap p inner => p ++ errRender inner

/-- Abstraction of the external apimachinery field.Error input to NewInvalid:
the cause type string, the ErrorBody rendering and the field path, which are
the three projections NewInvalid reads. -/
structure FieldError where
  type : String
  errorBody : String
  field : String
deriving DecidableEq

/-- Abstraction of the rendering of the external field.ErrorList ToAggregate
value inside the NewInvalid message; no claim depends on this text. -/
def fieldErrorsRender (errs : List FieldError) : String :=
  String.intercalate ", " (errs.map (fun e => e.field ++ ": " ++ e.errorBody))

/-- NewNotFound from src/errors/errors.go: 404, reason NotFound. The
constructors return the ErrStatus of the StatusError they build. -/
def NewNotFound (name uid : String) : Status :=
  { status := StatusFailure
    code := 404
    reason := StatusReasonNotFound
    details := some { name := name, uid := uid, causes := [], retryAfterSeconds := 0 }
    message :=
      if 0 < uid.length then name ++ " (" ++ uid ++ ") not found"
      else name ++ " not found" }

/-- NewAlreadyExists from src/errors/errors.go: 409, reason AlreadyExists.
The message text says not found, faithfully to the source. -/
def NewAlreadyExists (name uid : String) : Status :=
  { status := StatusFailure
    code := 409
    reason := StatusReasonAlreadyExists
    details := some { name := name, uid := uid, causes := [], retryAfterSeconds := 0 }
    message :=
      if 0 < uid.length then name ++ " (" ++ uid ++ ") not found"
      else name ++ " not found" }

/-- NewUnauthorized from src/errors/errors.go: 401, reason Unauthorized. -/
def NewUnauthorized (reason : String) : Status :=
  { status := StatusFailure
    code := 401
    reason := StatusReasonUnauthorized
    message := if reason.length = 0 then "not authorized" else reason
    details := none }

/-- NewForbidden from src/errors/errors.go: 403, reason Forbidden. -/
def NewForbidden (name : String) (err : Err) : Status :=
  { status := StatusFailure
    code := 403
    reason := StatusReasonForbidden
    details := some { name := name, uid := "", causes := [], retryAfterSeconds := 0 }
    message := "forbidden: " ++ errRender err }

/-- NewConflict from src/errors/errors.go: 409, reason Conflict. -/
def NewConflict (name : String) (err : Err) : Status :=
  { status := StatusFailure
    code := 409
    reason := StatusReasonConflict
    details := some { name := name, uid := "", causes := [], retryAfterSeconds := 0 }
    message := "Operation cannot be fulfilled on " ++ name ++ ": " ++ errRender err }

/-- NewInvalid from src/errors/errors.go: 422, reason Invalid, one cause per
field error in order. -/
def NewInvalid (name : String) (errs : List FieldError) : Status :=
  { status := StatusFailure
    code := 422
    reason := StatusReasonInvalid
    details := some
      { name := name
        uid := ""
        causes := errs.map (fun e => { type := e.type, message := e.errorBody, field := e.field })
        retryAfterSeconds := 0 }
    message := name ++ " is invalid: " ++ fieldErrorsRender errs }

/-- NewBadRequest from src/errors/errors.go: 400, reason BadRequest. -/
def NewBadRequest (reason : String) : Status :=
  { status := StatusFailure
    code := 400
    reason := StatusReasonBadRequest
    message := reason
    details := none }

/-- NewTooManyRequests from src/errors/errors.go: 429, reason
TooManyRequests, with a retry hint stored through an int32 conversion. -/
def NewTooManyRequests (message : String) (retryAfterSeconds : Int) : Status :=
  { status := StatusFailure
    code := 429
    reason := StatusReasonTooManyRequests
    message := message
    details := some { name := "", uid := "", causes := [], retryAfterSeconds := toInt32 retryAfterSeconds } }

/-- NewServiceUnavailable from src/errors/errors.go: 503, reason
ServiceUnavailable. -/
def NewServiceUnavailable (reason : String) : Status :=
  { status := StatusFailure
    code := 503
    reason := StatusReasonServiceUnavailable
    message := reason
    details := none }

/-- NewMethodNotSupported from src/errors/errors.go: 405, reason
MethodNotAllowed. -/
def NewMethodNotSupported (action : String) : Status :=
  { status := StatusFailure
    code := 405
    reason := StatusReasonMethodNotAllowed
    message := action ++ " is not supported on this resource"
    details := none }

/-- NewServerTimeout from src/errors/errors.go: 500, reason ServerTimeout. -/
def NewServerTimeout (operation : String) (retryAfterSeconds : Int) : Status :=
  { status := StatusFailure
    code := 500
    reason := StatusReasonServerTimeout
    details := some { name := operation, uid := "", causes := [], retryAfterSeconds := toInt32 retryAfterSeconds }
    message := "The " ++ operation ++ " operation could not be completed at this time, please try again." }

/-- NewInternalError from src/errors/errors.go: 500, reason InternalError,
one cause carrying the rendered underlying error. -/
def NewInternalError (err : Err) : Status :=
  { status := StatusFailure
    code := 500
    reason := StatusReasonInternalError
    details := some
      { name := ""
        uid := ""
        causes := [{ type := "", message := errRender err, field := "" }]
        retryAfterSeconds := 0 }
    message := "Internal error occurred: " ++ errRender err }

/-- NewTimeoutError from src/errors/errors.go: 504, reason Timeout. -/
def NewTimeoutError (message : String) (retryAfterSeconds : Int) : Status :=
  { status := StatusFailure
    code := 504
    reason := StatusReasonTimeout
    message := "Timeout: " ++ message
    details := some { name := "", uid := "", causes := [], retryAfterSeconds := toInt32 retryAfterSeconds } }

/-- NewTooManyRequestsError from src/errors/errors.go: 429, reason
TooManyRequests, without details. -/
def NewTooManyRequestsError (message : String) : Status :=
  { status := StatusFailure
    code := 429
    reason := StatusReasonTooManyRequests
    message := "Too many requests: " ++ message
    details := none }

/-- NewRequestEntityTooLargeError from src/errors/errors.go: 413, reason
RequestEntityTooLarge. -/
def NewRequestEntityTooLargeError (message : String) : Status :=
  { status := StatusFailure
    code := 413
    reason := StatusReasonRequestEntityTooLarge
    message := "Request entity too large: " ++ message
    details := none }

/-- NewGenericServerResponse from src/errors/errors.go: maps an arbitrary
numeric code onto the closed reason vocabulary. The Go switch is on the full
int code; the stored code and retry hint go through int32 conversions. -/
def NewGenericServerResponse (code : Int) (verb name serverMessage : String)
    (retryAfterSeconds : Int) (isUnexpectedResponse : Bool) : Status :=
  let pair : String × String :=
    if code = 409 then
      (if verb = "POST" then StatusReasonAlreadyExists else StatusReasonConflict,
       "the server reported a conflict")
    else if code = 404 then
      (StatusReasonNotFound, "the server could not find the requested resource")
    else if code = 400 then
      (StatusReasonBadRequest, "the server rejected our request for an unknown reason")
    else if code = 401 then
      (StatusReasonUnauthorized, "the server has asked for the client to provide credentials")
    else if code = 403 then
      (StatusReasonForbidden, serverMessage)
    else if code = 406 then
      (StatusReasonNotAcceptable,
       if serverMessage.length = 0 ∨ serverMessage = "unknown" then
         "the server was unable to respond with a content type that the client supports"
       else serverMessage)
    else if code = 415 then
      (StatusReasonUnsupportedMediaType, serverMessage)
    else if code = 405 then
      (StatusReasonMethodNotAllowed, "the server does not allow this method on the requested resource")
    else if code = 422 then
      (StatusReasonInvalid, "the server rejected our request due to an error in our request")
    else if code = 503 then
      (StatusReasonServiceUnavailable, "the server is currently unable to handle the request")
    else if code = 504 then
      (StatusReasonTimeout,
       "the server was unable to return a response in the time allotted, but may still be processing the request")
    else if code = 429 then
      (StatusReasonTooManyRequests,
       "the server has received too many requests and has asked us to try again later")
    else if 500 ≤ code then
      (StatusReasonInternalError,
       "an error on the server (\"" ++ serverMessage ++ "\") has prevented the request from succeeding")
    else
      (StatusReasonUnknown,
       "the server responded with the status code " ++ toString code ++ " but did not return more information")
  let causes : List StatusCause :=
    if isUnexpectedResponse then
      [{ type := CauseTypeUnexpectedServerResponse, message := serverMessage, field := "" }]
    else []
  { status := StatusFailure
    code := toInt32 code
    reason := pair.1
    details := some { name := name, uid := "", causes := causes, retryAfterSeconds := toInt32 retryAfterSeconds }
    message := pair.2 }

/-- The wrap-chain search the standard errors.As call performs with an
APIStatus target: the first value in the chain that has a Status method.
The statusError value is the only modelled error shape implementing it; the
wrapping error only contributes its unwrap step. -/
def firstAPIStatus : Err → Option Status
  | .statusError s => some s
  | .wrap _ inner => firstAPIStatus inner
  | _ => none

/-- The same search on a possibly nil Go error; errors.As on a nil error
finds nothing. -/
def findAPIStatus : Option Err → Option Status
  | none => none
  | some e => firstAPIStatus e

/-- ReasonForError from src/errors/errors.go: the reason of the first value
in the chain exposing Status, and the Unknown zero value otherwise. Total on
every input, nil included. -/
def ReasonForError (err : Option Err) : String :=
  match findAPIStatus err with
  | some s => s.reason
  | none => StatusReasonUnknown

/-- IsNotFound from src/errors/errors.go. -/
def IsNotFound (err : Option Err) : Bool :=
  ReasonForError err == StatusReasonNotFound

/-- IsAlreadyExists from src/errors/errors.go. -/
def IsAlreadyExists (err : Option Err) : Bool :=
  ReasonForError err == StatusReasonAlreadyExists

/-- IsConflict from src/errors/errors.go. -/
def IsConflict (err : Option Err) : Bool :=
  ReasonForError err == StatusReasonConflict

/-- IsInvalid from src/errors/errors.go. -/
def IsInvalid (err : Option Err) : Bool :=
  ReasonForError err == StatusReasonInvalid

/-- IsNotAcceptable from src/errors/errors.go. -/
def IsNotAcceptable (err : Option Err) : Bool :=
  ReasonForError err == StatusReasonNotAcceptable

/-- IsUnsupportedMediaType from src/errors/errors.go. -/
def IsUnsupportedMediaType (err : Option Err) : Bool :=
  ReasonForError err == StatusReasonUnsupportedMediaType

/-- IsMethodNotSupported from src/errors/errors.go. -/
def IsMethodNotSupported (err : Option Err) : Bool :=
  ReasonForError err == StatusReasonMethodNotAllowed

/-- IsServiceUnavailable from src/errors/errors.go. -/
def IsServiceUnavailable (err : Option Err) : Bool :=
  ReasonForError err == StatusReasonServiceUnavailable

/-- IsBadRequest from src/errors/errors.go. -/
def IsBadRequest (err : Option Err) : Bool :=
  ReasonForError err == StatusReasonBadRequest

/-- IsUnauthorized from src/errors/errors.go. -/
def IsUnauthorized (err : Option Err) : Bool :=
  ReasonForError err == StatusReasonUnauthorized

/-- IsForbidden from src/errors/errors.go. -/
def IsForbidden (err : Option Err) : Bool :=
  ReasonForError err == StatusReasonForbidden

/-- IsTimeout from src/errors/errors.go. -/
def IsTimeout (err : Option Err) : Bool :=
  ReasonForError err == StatusReasonTimeout

/-- IsServerTimeout from src/errors/errors.go. -/
def IsServerTimeout (err : Option Err) : Bool :=
  ReasonForError err == StatusReasonServerTimeout

/-- IsInternalError from src/errors/errors.go. -/
def IsInternalError (err : Option Err) : Bool :=
  ReasonForError err == StatusReasonInternalError

/-- IsTooManyRequests from src/errors/errors.go: matches on the found
reason, or failing that on code 429 of the first found status. -/
def IsTooManyRequests (err : Option Err) : Bool :=
  if ReasonForError err == StatusReasonTooManyRequests then true
  else
    match findAPIStatus err with
    | some s => s.code == 429
    | none => false

/-- IsRequestEntityTooLargeError from src/errors/errors.go: matches on the
found reason, or failing that on code 413 of the first found status. -/
def IsRequestEntityTooLargeError (err : Option Err) : Bool :=
  if ReasonForError err == StatusReasonRequestEntityTooLarge then true
  else
    match findAPIStatus err with
    | some s => s.code == 413
    | none => false

/-- IsUnexpectedServerError from src/errors/errors.go: the first found
status must carry details and a cause of the unexpected server response
type. -/
def IsUnexpectedServerError (err : Option Err) : Bool :=
  match findAPIStatus err with
  | some s =>
    match s.details with
    | some d => d.causes.any (fun c => c.type == CauseTypeUnexpectedServerResponse)
    | none => false
  | none => false

/-- SuggestsClientDelay from src/errors/errors.go: needs a found status
with non-absent details; the ServerTimeout reason returns the hint
unconditionally, otherwise only a positive hint is returned. The source
returns the int32 details value converted back to int, which preserves it. -/
def SuggestsClientDelay (err : Option Err) : Int × Bool :=
  match findAPIStatus err with
  | some s =>
    match s.details with
    | some d =>
      if s.reason = StatusReasonServerTimeout then (d.retryAfterSeconds, true)
      else if 0 < d.retryAfterSeconds then (d.retryAfterSeconds, true)
      else (0, false)
    | none => (0, false)
  | none => (0, false)

/-- The top-level type test ErrorToAPIStatus performs: a direct type switch
on the error value itself for a Status method, with no unwrapping. Only the
statusError shape implements it. -/
def exposesStatus : Err → Option Status
  | .statusError s => some s
  | _ => none

/-- ErrorToAPIStatus from src/errors/errors.go. The Bool component records
whether the fault-logging channel (runtime.HandleError) was invoked for a
status field that is neither Success nor Failure; the Status is returned to
the caller in every case. -/
def ErrorToAPIStatus (err : Err) : Status × Bool :=
  match exposesStatus err with
  | some s0 =>
    let s1 := if s0.status.length = 0 then { s0 with status := StatusFailure } else s0
    if s1.status = StatusSuccess then
      ({ s1 with code := if s1.code = 0 then 200 else s1.code }, false)
    else if s1.status = StatusFailure then
      ({ s1 with code := if s1.code = 0 then 500 else s1.code }, false)
    else
      ({ s1 with code := if s1.code = 0 then 500 else s1.code }, true)
  | none =>
    ({ status := StatusFailure
       code := 500
       reason := StatusReasonUnknown
       message := errRender err
       details := none }, false)

/-- Model of a JSON value for the wire format. Numbers are restricted to
integers: every numeric field of the wire format is integer typed, and a
fractional number in a body makes the Go decoder fail just as a wrongly
typed value does, which the model covers through the other mismatch cases. -/
inductive JValue where
  | str (s : String) : JValue
  | num (n : Int) : JValue
  | boolean (b : Bool) : JValue
  | null : JValue
  | arr (xs : List JValue) : JValue
  | obj (fields : List (String × JValue)) : JValue

/-- Object member lookup with the Go decoder semantics: on duplicate keys
the last member wins. -/
def jLookup : List (String × JValue) → String → Option JValue
  | [], _ => none
  | (k, v) :: rest, key =>
    match jLookup rest key with
    | some w => some w
    | none => if k = key then some v else none

/-- Go decoding of an optional object member into a string field: an absent
or null member keeps the zero value, a string member is taken, anything
else fails. -/
def jStringField : Option JValue → Except String String
  | none => .ok ""
  | some (.str s) => .ok s
  | some .null => .ok ""
  | some _ => .error "cannot unmarshal value into string field"

/-- Go decoding of an optional object member into an int32 field: an absent
or null member keeps the zero value, an integer in the int32 range is
taken, an out-of-range or wrongly typed member fails. -/
def jInt32Field : Option JValue → Except String Int
  | none => .ok 0
  | some (.num n) =>
    if -2147483648 ≤ n ∧ n < 2147483648 then .ok n
    else .error "number overflows int32 field"
  | some .null => .ok 0
  | some _ => .error "cannot unmarshal value into int32 field"

/-- Modelled from the spec: decoding one wire cause object with members
type, message and field (section 6); the Go struct declarations carrying
the JSON tags are not under src. A null element leaves the zero cause. -/
def decodeCause : JValue → Except String StatusCause
  | .obj fs => do
    let t ← jStringField (jLookup fs "type")
    let m ← jStringField (jLookup fs "message")
    let f ← jStringField (jLookup fs "field")
    .ok { type := t, message := m, field := f }
  | .null => .ok { type := "", message := "", field := "" }
  | _ => .error "cannot unmarshal value into StatusCause"

/-- Elementwise decoding of a causes array, failing on the first bad
element. -/
def decodeCauseList : List JValue → Except String (List StatusCause)
  | [] => .ok []
  | v :: rest => do
    let c ← decodeCause v
    let cs ← decodeCauseList rest
    .ok (c :: cs)

/-- Modelled from the spec: decoding the causes member, where an absent or
null array means no causes (section 6 and the data model invariant). -/
def decodeCauses : Option JValue → Except String (List StatusCause)
  | none => .ok []
  | some .null => .ok []
  | some (.arr xs) => decodeCauseList xs
  | some _ => .error "cannot unmarshal value into causes field"

/-- Modelled from the spec: decoding the details member with members name,
uid, retryAfterSeconds and causes (section 6); absent or null details stay
absent. -/
def decodeDetails : Option JValue → Except String (Option StatusDetails)
  | none => .ok none
  | some .null => .ok none
  | some (.obj fs) => do
    let n ← jStringField (jLookup fs "name")
    let u ← jStringField (jLookup fs "uid")
    let cs ← decodeCauses (jLookup fs "causes")
    let r ← jInt32Field (jLookup fs "retryAfterSeconds")
    .ok (some { name := n, uid := u, causes := cs, retryAfterSeconds := r })
  | some _ => .error "cannot unmarshal value into StatusDetails"

/-- Modelled from the spec: the Go json.Unmarshal of a body into a Status
with wire members status, code, reason, message and details (section 6).
A top-level null leaves the zero Status, matching the Go decoder; unknown
members are ignored; a non-object body fails. -/
def decodeStatus : JValue → Except String Status
  | .obj fs => do
    let st ← jStringField (jLookup fs "status")
    let c ← jInt32Field (jLookup fs "code")
    let r ← jStringField (jLookup fs "reason")
    let m ← jStringField (jLookup fs "message")
    let d ← decodeDetails (jLookup fs "details")
    .ok { status := st, code := c, reason := r, message := m, details := d }
  | .null => .ok { status := "", code := 0, reason := "", message := "", details := none }
  | _ => .error "cannot unmarshal value into Status"

/-- Modelled from the spec: encoding one cause onto the wire (section 6). -/
def encodeCause (c : StatusCause) : JValue :=
  .obj [("type", .str c.type), ("message", .str c.message), ("field", .str c.field)]

/-- Modelled from the spec: encoding details onto the wire (section 6). -/
def encodeDetails (d : StatusDetails) : JValue :=
  .obj [("name", .str d.name), ("uid", .str d.uid),
        ("causes", .arr (d.causes.map encodeCause)),
        ("retryAfterSeconds", .num d.retryAfterSeconds)]

/-- Modelled from the spec: encoding a Status onto the wire, with the
details member absent when the Status carries none (section 6). -/
def encodeStatus (s : Status) : JValue :=
  .obj ([("status", .str s.status), ("code", .num s.code),
         ("reason", .str s.reason), ("message", .str s.message)] ++
        (match s.details with
         | none => []
         | some d => [("details", encodeDetails d)]))

/-- Result of reading and parsing a response body: the read of the body can
fail, the bytes can fail to parse as JSON, or they form a JSON value. -/
inductive BodyResult where
  | readErr (msg : String) : BodyResult
  | malformed (msg : String) : BodyResult
  | value (v : JValue) : BodyResult

/-- Model of the parts of an http.Response that FromResponse reads: the
numeric status code, the body, and the result of Header.Get on Retry-After
(the empty string when the header is absent, as Header.Get returns). -/
structure Response where
  statusCode : Int
  body : BodyResult
  retryAfter : String

/-- Model of strconv.Atoi: an optional sign followed by decimal digits,
within the signed 64-bit range; anything else is a parse error. -/
def decDigits : List Char → Option Nat
  | [] => none
  | cs => cs.foldlM (fun acc c =>
      if '0' ≤ c ∧ c ≤ '9' then some (acc * 10 + (c.toNat - 48)) else none) 0

/-- Model of strconv.Atoi on a header string. -/
def goAtoi (s : String) : Option Int :=
  let cs := s.toList
  let signed : Bool × List Char :=
    match cs with
    | '-' :: rest => (true, rest)
    | '+' :: rest => (false, rest)
    | _ => (false, cs)
  match decDigits signed.2 with
  | none => none
  | some n =>
    let v : Int := if signed.1 then -(n : Int) else (n : Int)
    if -9223372036854775808 ≤ v ∧ v < 9223372036854775808 then some v else none

/-- retryAfterSeconds from src/errors/errors.go: the Retry-After header
value when present and accepted by Atoi, otherwise 0 and false. -/
def retryAfterSeconds (resp : Response) : Int × Bool :=
  if 0 < resp.retryAfter.length then
    match goAtoi resp.retryAfter with
    | some i => (i, true)
    | none => (0, false)
  else (0, false)

/-- FromResponse from src/errors/errors.go: no error for codes 200 to 204;
otherwise a read or decode failure becomes an InternalError wrapping it,
and a decoded Status gets the Retry-After header folded into its details
(stored through an int32 conversion) and is returned as a StatusError. -/
def FromResponse (resp : Response) : Option Err × Bool :=
  if 200 ≤ resp.statusCode ∧ resp.statusCode ≤ 204 then (none, false)
  else
    match resp.body with
    | .readErr m =>
      (some (.statusError (NewInternalError
        (.wrap "client error: reading server response: " (.basic m)))), true)
    | .malformed m =>
      (some (.statusError (NewInternalError
        (.wrap "client error: unmarshalling server response: " (.basic m)))), true)
    | .value v =>
      match decodeStatus v with
      | .error m =>
        (some (.statusError (NewInternalError
          (.wrap "client error: unmarshalling server response: " (.basic m)))), true)
      | .ok st =>
        let folded :=
          match retryAfterSeconds resp with
          | (seconds, true) =>
            match st.details with
            | none =>
              { st with details := some { name := "", uid := "", causes := [], retryAfterSeconds := toInt32 seconds } }
            | some d =>
              { st with details := some { d with retryAfterSeconds := toInt32 seconds } }
          | (_, false) => st
        (some (.statusError folded), true)

/-- An Int holds a value representable in a signed 32-bit integer. -/
def isInt32 (n : Int) : Bool :=
  decide (-2147483648 ≤ n) && decide (n < 2147483648)

/-- A Status is well formed when its numeric fields hold values the Go
int32 fields can hold; every Status the Go program builds satisfies this. -/
def statusWF (s : Status) : Bool :=
  isInt32 s.code &&
    (match s.details with
     | none => true
     | some d => isInt32 d.retryAfterSeconds)

theorem string_of_length_zero {s : String} (h : s.length = 0) : s = "" := by
  cases s with
  | mk data =>
    cases data with
    | nil => rfl
    | cons a l => simp [String.length] at h

theorem decodeCause_encodeCause (c : StatusCause) : decodeCause (encodeCause c) = .ok c := rfl

theorem decodeCauseList_encode (cs : List StatusCause) :
    decodeCauseList (cs.map encodeCause) = .ok cs := by
  induction cs with
  | nil => rfl
  | cons c rest ih => simp [decodeCauseList, decodeCause_encodeCause, ih, Bind.bind, Except.bind]

theorem decode_encode (s : Status) (h : statusWF s = true) :
    decodeStatus (encodeStatus s) = .ok s := by
  obtain ⟨st, code, reason, msg, details⟩ := s
  cases details with
  | none =>
    simp [statusWF, isInt32] at h
    simp [encodeStatus, decodeStatus, jLookup, jStringField, jInt32Field, decodeDetails,
      h.1, h.2, Bind.bind, Except.bind]
  | some d =>
    simp [statusWF, isInt32] at h
    obtain ⟨⟨hc1, hc2⟩, hr1, hr2⟩ := h
    simp [encodeStatus, decodeStatus, encodeDetails, jLookup, jStringField, jInt32Field,
      decodeDetails, decodeCauses, decodeCauseList_encode, hc1, hc2, hr1, hr2,
      Bind.bind, Except.bind]

/-- C1: every canonical constructor returns a StatusError whose Status has
status Failure and the fixed code and reason pair of its kind, for every
argument value. -/
theorem claim1_canonical_constructors :
    (∀ name uid, (NewNotFound name uid).status = StatusFailure
      ∧ (NewNotFound name uid).code = 404
      ∧ (NewNotFound name uid).reason = StatusReasonNotFound)
    ∧ (∀ name uid, (NewAlreadyExists name uid).status = StatusFailure
      ∧ (NewAlreadyExists name uid).code = 409
      ∧ (NewAlreadyExists name uid).reason = StatusReasonAlreadyExists)
    ∧ (∀ reason, (NewUnauthorized reason).status = StatusFailure
      ∧ (NewUnauthorized reason).code = 401
      ∧ (NewUnauthorized reason).reason = StatusReasonUnauthorized)
    ∧ (∀ name err, (NewForbidden name err).status = StatusFailure
      ∧ (NewForbidden name err).code = 403
      ∧ (NewForbidden name err).reason = StatusReasonForbidden)
    ∧ (∀ name err, (NewConflict name err).status = StatusFailure
      ∧ (NewConflict name err).code = 409
      ∧ (NewConflict name err).reason = StatusReasonConflict)
    ∧ (∀ name errs, (NewInvalid name errs).status = StatusFailure
      ∧ (NewInvalid name errs).code = 422
      ∧ (NewInvalid name errs).reason = StatusReasonInvalid)
    ∧ (∀ reason, (NewBadRequest reason).status = StatusFailure
      ∧ (NewBadRequest reason).code = 400
      ∧ (NewBadRequest reason).reason = StatusReasonBadRequest)
    ∧ (∀ msg ras, (NewTooManyRequests msg ras).status = StatusFailure
      ∧ (NewTooManyRequests msg ras).code = 429
      ∧ (NewTooManyRequests msg ras).reason = StatusReasonTooManyRequests)
    ∧ (∀ reason, (NewServiceUnavailable reason).status = StatusFailure
      ∧ (NewServiceUnavailable reason).code = 503
      ∧ (NewServiceUnavailable reason).reason = StatusReasonServiceUnavailable)
    ∧ (∀ action, (NewMethodNotSupported action).status = StatusFailure
      ∧ (NewMethodNotSupported action).code = 405
      ∧ (NewMethodNotSupported action).reason = StatusReasonMethodNotAllowed)
    ∧ (∀ op ras, (NewServerTimeout op ras).status = StatusFailure
      ∧ (NewServerTimeout op ras).code = 500
      ∧ (NewServerTimeout op ras).reason = StatusReasonServerTimeout)
    ∧ (∀ err, (NewInternalError err).status = StatusFailure
      ∧ (NewInternalError err).code = 500
      ∧ (NewInternalError err).reason = StatusReasonInternalError)
    ∧ (∀ msg ras, (NewTimeoutError msg ras).status = StatusFailure
      ∧ (NewTimeoutError msg ras).code = 504
      ∧ (NewTimeoutError msg ras).reason = StatusReasonTimeout)
    ∧ (∀ msg, (NewRequestEntityTooLargeError msg).status = StatusFailure
      ∧ (NewRequestEntityTooLargeError msg).code = 413
      ∧ (NewRequestEntityTooLargeError msg).reason = StatusReasonRequestEntityTooLarge) :=
  ⟨fun _ _ => ⟨rfl, rfl, rfl⟩, fun _ _ => ⟨rfl, rfl, rfl⟩, fun _ => ⟨rfl, rfl, rfl⟩,
   fun _ _ => ⟨rfl, rfl, rfl⟩, fun _ _ => ⟨rfl, rfl, rfl⟩, fun _ _ => ⟨rfl, rfl, rfl⟩,
   fun _ => ⟨rfl, rfl, rfl⟩, fun _ _ => ⟨rfl, rfl, rfl⟩, fun _ => ⟨rfl, rfl, rfl⟩,
   fun _ => ⟨rfl, rfl, rfl⟩, fun _ _ => ⟨rfl, rfl, rfl⟩, fun _ => ⟨rfl, rfl, rfl⟩,
   fun _ _ => ⟨rfl, rfl, rfl⟩, fun _ => ⟨rfl, rfl, rfl⟩⟩

/-- C2: ReasonForError returns the reason of the first value in the wrap
chain exposing Status and Unknown when none exists (a nil error included);
each pure reason classifier holds exactly when that found reason equals its
target, hence succeeds through arbitrary wrap depth; all classifiers are
total functions, so none can panic. -/
theorem claim2_reason_for_error_and_classifiers :
    ReasonForError none = StatusReasonUnknown
    ∧ (∀ s, ReasonForError (some (Err.statusError s)) = s.reason)
    ∧ (∀ p e, ReasonForError (some (Err.wrap p e)) = ReasonForError (some e))
    ∧ (∀ m, ReasonForError (some (Err.basic m)) = StatusReasonUnknown)
    ∧ (∀ o, ReasonForError (some (Err.unexpectedObjectError o)) = StatusReasonUnknown)
    ∧ (∀ err, IsNotFound err = true ↔ ReasonForError err = StatusReasonNotFound)
    ∧ (∀ err, IsAlreadyExists err = true ↔ ReasonForError err = StatusReasonAlreadyExists)
    ∧ (∀ err, IsConflict err = true ↔ ReasonForError err = StatusReasonConflict)
    ∧ (∀ err, IsInvalid err = true ↔ ReasonForError err = StatusReasonInvalid)
    ∧ (∀ err, IsNotAcceptable err = true ↔ ReasonForError err = StatusReasonNotAcceptable)
    ∧ (∀ err, IsUnsupportedMediaType err = true ↔ ReasonForError err = StatusReasonUnsupportedMediaType)
    ∧ (∀ err, IsMethodNotSupported err = true ↔ ReasonForError err = StatusReasonMethodNotAllowed)
    ∧ (∀ err, IsServiceUnavailable err = true ↔ ReasonForError err = StatusReasonServiceUnavailable)
    ∧ (∀ err, IsBadRequest err = true ↔ ReasonForError err = StatusReasonBadRequest)
    ∧ (∀ err, IsUnauthorized err = true ↔ ReasonForError err = StatusReasonUnauthorized)
    ∧ (∀ err, IsForbidden err = true ↔ ReasonForError err = StatusReasonForbidden)
    ∧ (∀ err, IsTimeout err = true ↔ ReasonForError err = StatusReasonTimeout)
    ∧ (∀ err, IsServerTimeout err = true ↔ ReasonForError err = StatusReasonServerTimeout)
    ∧ (∀ err, IsInternalError err = true ↔ ReasonForError err = StatusReasonInternalError)
    ∧ IsAlreadyExists (some (Err.wrap "w: " (Err.wrap "v: "
        (Err.statusError (NewAlreadyExists "a" "1"))))) = true := by
  refine ⟨rfl, fun s => rfl, fun p e => rfl, fun m => rfl, fun o => rfl,
    ?_, ?_, ?_, ?_, ?_, ?_, ?_, ?_, ?_, ?_, ?_, ?_, ?_, ?_, by decide⟩
  all_goals intro err
  · simp [IsNotFound]
  · simp [IsAlreadyExists]
  · simp [IsConflict]
  · simp [IsInvalid]
  · simp [IsNotAcceptable]
  · simp [IsUnsupportedMediaType]
  · simp [IsMethodNotSupported]
  · simp [IsServiceUnavailable]
  · simp [IsBadRequest]
  · simp [IsUnauthorized]
  · simp [IsForbidden]
  · simp [IsTimeout]
  · simp [IsServerTimeout]
  · simp [IsInternalError]

/-- C3: the two code-fallback classifiers hold exactly when the first value
in the chain exposing Status has the target reason or, failing that, the
expected numeric code (429 or 413), even with an empty or different reason;
they are false when neither matches or when no value exposes Status. -/
theorem claim3_code_fallback_classifiers :
    (∀ err, IsTooManyRequests err = true ↔
      (∃ s, findAPIStatus err = some s
        ∧ (s.reason = StatusReasonTooManyRequests ∨ s.code = 429)))
    ∧ (∀ err, IsRequestEntityTooLargeError err = true ↔
      (∃ s, findAPIStatus err = some s
        ∧ (s.reason = StatusReasonRequestEntityTooLarge ∨ s.code = 413)))
    ∧ IsTooManyRequests (some (Err.statusError
        { status := "", code := 429, reason := "", message := "", details := none })) = true
    ∧ IsRequestEntityTooLargeError (some (Err.statusError
        { status := "", code := 413, reason := "", message := "", details := none })) = true := by
  refine ⟨fun err => ?_, fun err => ?_, by decide, by decide⟩
  · cases h : findAPIStatus err with
    | none => simp [IsTooManyRequests, ReasonForError, h, StatusReasonUnknown, StatusReasonTooManyRequests]
    | some s => simp [IsTooManyRequests, ReasonForError, h]
  · cases h : findAPIStatus err with
    | none => simp [IsRequestEntityTooLargeError, ReasonForError, h, StatusReasonUnknown, StatusReasonRequestEntityTooLarge]
    | some s => simp [IsRequestEntityTooLargeError, ReasonForError, h]

/-- C10: ErrorToAPIStatus inspects only the top-level error value for the
Status capability: a wrapping error around any inner error, a StatusError
included, yields the synthesized Failure, 500, Unknown status carrying the
wrapper rendered text, while the classifiers do traverse the chain and see
the wrapped reason. -/
theorem claim10_top_level_capability_only :
    (∀ p e, ErrorToAPIStatus (Err.wrap p e)
      = ({ status := StatusFailure, code := 500, reason := StatusReasonUnknown,
           message := p ++ errRender e, details := none }, false))
    ∧ (∀ p s, ReasonForError (some (Err.wrap p (Err.statusError s))) = s.reason) :=
  ⟨fun _ _ => rfl, fun _ _ => rfl⟩

/-- C4 (amended): NewGenericServerResponse always returns a Failure status
whose code is the given code reduced to signed 32 bits (the given code
itself whenever it is in the int32 range) and whose reason follows the
first-match decision table of the spec, with the creation verb being POST;
orthogonally, the details carry exactly one cause of the unexpected server
response type holding the raw server message when the flag is set, and no
cause otherwise. -/
theorem claim4_generic_server_response :
    ∀ code : Int, ∀ verb name msg : String, ∀ ras : Int, ∀ unexp : Bool,
    ((code = 429 →
      (NewGenericServerResponse code verb name msg ras unexp).reason = StatusReasonTooManyRequests)
    ∧ (unexp = true →
      (NewGenericServerResponse code verb name msg ras unexp).details
        = some { name := name, uid := "",
                 causes := [{ type := CauseTypeUnexpectedServerResponse, message := msg, field := "" }],
                 retryAfterSeconds := toInt32 ras })
    ∧ (unexp = false →
      (NewGenericServerResponse code verb name msg ras unexp).details
        = some { name := name, uid := "", causes := [], retryAfterSeconds := toInt32 ras })
    ∧ (NewGenericServerResponse code verb name msg ras unexp).status = StatusFailure
    ∧ (NewGenericServerResponse code verb name msg ras unexp).code = toInt32 code
    ∧ (code = 409 → verb = "POST" →
      (NewGenericServerResponse code verb name msg ras unexp).reason = StatusReasonAlreadyExists)
    ∧ (code = 409 → verb ≠ "POST" →
      (NewGenericServerResponse code verb name msg ras unexp).reason = StatusReasonConflict)
    ∧ (code = 404 →
      (NewGenericServerResponse code verb name msg ras unexp).reason = StatusReasonNotFound)
    ∧ (code = 400 →
      (NewGenericServerResponse code verb name msg ras unexp).reason = StatusReasonBadRequest)
    ∧ (code = 401 →
      (NewGenericServerResponse code verb name msg ras unexp).reason = StatusReasonUnauthorized)
    ∧ (code = 403 →
      (NewGenericServerResponse code verb name msg ras unexp).reason = StatusReasonForbidden
      ∧ (NewGenericServerResponse code verb name msg ras unexp).message = msg)
    ∧ (code = 406 →
      (NewGenericServerResponse code verb name msg ras unexp).reason = StatusReasonNotAcceptable)
    ∧ (code = 406 → (msg.length = 0 ∨ msg = "unknown") →
      (NewGenericServerResponse code verb name msg ras unexp).message
        = "the server was unable to respond with a content type that the client supports")
    ∧ (code = 406 → ¬ (msg.length = 0 ∨ msg = "unknown") →
      (NewGenericServerResponse code verb name msg ras unexp).message = msg)
    ∧ (code = 415 →
      (NewGenericServerResponse code verb name msg ras unexp).reason = StatusReasonUnsupportedMediaType)
    ∧ (code = 405 →
      (NewGenericServerResponse code verb name msg ras unexp).reason = StatusReasonMethodNotAllowed)
    ∧ (code = 422 →
      (NewGenericServerResponse code verb name msg ras unexp).reason = StatusReasonInvalid)
    ∧ (code = 503 →
      (NewGenericServerResponse code verb name msg ras unexp).reason = StatusReasonServiceUnavailable)
    ∧ (code = 504 →
      (NewGenericServerResponse code verb name msg ras unexp).reason = StatusReasonTimeout)
    ∧ (code ≠ 409 → code ≠ 404 → code ≠ 400 → code ≠ 401 → code ≠ 403 → code ≠ 406 →
       code ≠ 415 → code ≠ 405 → code ≠ 422 → code ≠ 503 → code ≠ 504 → code ≠ 429 →
       500 ≤ code →
      (NewGenericServerResponse code verb name msg ras unexp).reason = StatusReasonInternalError)
    ∧ (code ≠ 409 → code ≠ 404 → code ≠ 400 → code ≠ 401 → code ≠ 403 → code ≠ 406 →
       code ≠ 415 → code ≠ 405 → code ≠ 422 → code ≠ 503 → code ≠ 504 → code ≠ 429 →
       ¬ 500 ≤ code →
      (NewGenericServerResponse code verb name msg ras unexp).reason = StatusReasonUnknown)) := by
  intro code verb name msg ras unexp
  refine ⟨?_, ?_, ?_, rfl, rfl, ?_, ?_, ?_, ?_, ?_, ?_, ?_, ?_, ?_, ?_, ?_, ?_, ?_, ?_, ?_, ?_⟩
  · intro h; subst h; rfl
  · intro h; subst h; rfl
  · intro h; subst h; rfl
  · intro h hv; subst h; subst hv; rfl
  · intro h hv; subst h; simp [NewGenericServerResponse, hv]
  · intro h; subst h; rfl
  · intro h; subst h; rfl
  · intro h; subst h; rfl
  · intro h; subst h; exact ⟨rfl, rfl⟩
  · intro h; subst h; rfl
  · intro h hm; subst h; simp [NewGenericServerResponse, hm]
  · intro h hm; subst h; simp [NewGenericServerResponse] at hm ⊢; simp [hm.1, hm.2]
  · intro h; subst h; rfl
  · intro h; subst h; rfl
  · intro h; subst h; rfl
  · intro h; subst h; rfl
  · intro h; subst h; rfl
  · intro h1 h2 h3 h4 h5 h6 h7 h8 h9 h10 h11 h12 h13
    simp [NewGenericServerResponse, h1, h2, h3, h4, h5, h6, h7, h8, h9, h10, h11, h12, h13]
  · intro h1 h2 h3 h4 h5 h6 h7 h8 h9 h10 h11 h12 h13
    simp [NewGenericServerResponse, h1, h2, h3, h4, h5, h6, h7, h8, h9, h10, h11, h12, h13]

/-- C4 counterexample: at the input code 4294967296 (with any other
arguments) the stored Code is 0, the signed 32-bit reduction of the given
code, not the given code itself as the claim states. -/
theorem claim4_counterexample :
    (NewGenericServerResponse 4294967296 "GET" "res" "msg" 0 false).code = 0
    ∧ (NewGenericServerResponse 4294967296 "GET" "res" "msg" 0 false).code ≠ 4294967296 := by
  exact ⟨by decide, by decide⟩

/-- C4 witness: the amended theorem applied at the spec example input (429,
GET, unexpected response flag set, retry hint 10). -/
theorem claim4_witness :
    (NewGenericServerResponse 429 "GET" "res" "msg" 10 true).reason = StatusReasonTooManyRequests
    ∧ (NewGenericServerResponse 429 "GET" "res" "msg" 10 true).details
      = some { name := "res", uid := "",
               causes := [{ type := CauseTypeUnexpectedServerResponse, message := "msg", field := "" }],
               retryAfterSeconds := 10 } := by
  have h := claim4_generic_server_response 429 "GET" "res" "msg" 10 true
  refine ⟨h.1 rfl, ?_⟩
  rw [h.2.1 rfl]
  decide

/-- C5: when the wrap chain holds a status with non-absent details,
SuggestsClientDelay returns the details retry hint with true whenever the
reason is ServerTimeout (even for a hint of 0), otherwise returns the hint
with true exactly when it is positive; in every remaining case (no status
in the chain, absent details, or a non-positive hint with another reason)
it returns 0 and false. -/
theorem claim5_suggests_client_delay :
    (∀ err s d, findAPIStatus err = some s → s.details = some d →
      s.reason = StatusReasonServerTimeout →
      SuggestsClientDelay err = (d.retryAfterSeconds, true))
    ∧ (∀ err s d, findAPIStatus err = some s → s.details = some d →
      s.reason ≠ StatusReasonServerTimeout → 0 < d.retryAfterSeconds →
      SuggestsClientDelay err = (d.retryAfterSeconds, true))
    ∧ (∀ err s d, findAPIStatus err = some s → s.details = some d →
      s.reason ≠ StatusReasonServerTimeout → ¬ 0 < d.retryAfterSeconds →
      SuggestsClientDelay err = (0, false))
    ∧ (∀ err s, findAPIStatus err = some s → s.details = none →
      SuggestsClientDelay err = (0, false))
    ∧ (∀ err, findAPIStatus err = none → SuggestsClientDelay err = (0, false)) := by
  refine ⟨?_, ?_, ?_, ?_, ?_⟩
  · intro err s d hf hd hr
    simp [SuggestsClientDelay, hf, hd, hr]
  · intro err s d hf hd hr hpos
    simp [SuggestsClientDelay, hf, hd, hr, hpos]
  · intro err s d hf hd hr hpos
    simp [SuggestsClientDelay, hf, hd, hr, hpos]
  · intro err s hf hd
    simp [SuggestsClientDelay, hf, hd]
  · intro err hf
    simp [SuggestsClientDelay, hf]

/-- C5 witness: the theorem applied at the three spec examples: a server
timeout with hint 0 yields 0 and true, with hint 10 yields 10 and true, and
a bad request yields 0 and false. -/
theorem claim5_witness :
    SuggestsClientDelay (some (Err.statusError (NewServerTimeout "op" 0))) = (0, true)
    ∧ SuggestsClientDelay (some (Err.statusError (NewServerTimeout "op" 10))) = (10, true)
    ∧ SuggestsClientDelay (some (Err.statusError (NewBadRequest "x"))) = (0, false) := by
  refine ⟨?_, ?_, ?_⟩
  · rw [claim5_suggests_client_delay.1 (some (Err.statusError (NewServerTimeout "op" 0)))
      (NewServerTimeout "op" 0)
      { name := "op", uid := "", causes := [], retryAfterSeconds := toInt32 0 } rfl rfl rfl]
    decide
  · rw [claim5_suggests_client_delay.1 (some (Err.statusError (NewServerTimeout "op" 10)))
      (NewServerTimeout "op" 10)
      { name := "op", uid := "", causes := [], retryAfterSeconds := toInt32 10 } rfl rfl rfl]
    decide
  · exact claim5_suggests_client_delay.2.2.2.1 (some (Err.statusError (NewBadRequest "x")))
      (NewBadRequest "x") rfl rfl

/-- C6: FromResponse is no error for every status code in the closed range
200 to 204 regardless of body; outside that range a body read failure or a
decode failure never surfaces as the raw lower-level error but as a
StatusError classified InternalError wrapping the failure, with the error
flag set. -/
theorem claim6_from_response_downgrades :
    (∀ r : Response, 200 ≤ r.statusCode → r.statusCode ≤ 204 → FromResponse r = (none, false))
    ∧ (∀ r : Response, ∀ m, ¬ (200 ≤ r.statusCode ∧ r.statusCode ≤ 204) →
      r.body = BodyResult.readErr m →
      FromResponse r = (some (Err.statusError (NewInternalError
        (Err.wrap "client error: reading server response: " (Err.basic m)))), true)
      ∧ IsInternalError (FromResponse r).1 = true)
    ∧ (∀ r : Response, ∀ m, ¬ (200 ≤ r.statusCode ∧ r.statusCode ≤ 204) →
      r.body = BodyResult.malformed m →
      FromResponse r = (some (Err.statusError (NewInternalError
        (Err.wrap "client error: unmarshalling server response: " (Err.basic m)))), true)
      ∧ IsInternalError (FromResponse r).1 = true)
    ∧ (∀ r : Response, ∀ v m, ¬ (200 ≤ r.statusCode ∧ r.statusCode ≤ 204) →
      r.body = BodyResult.value v → decodeStatus v = Except.error m →
      FromResponse r = (some (Err.statusError (NewInternalError
        (Err.wrap "client error: unmarshalling server response: " (Err.basic m)))), true)
      ∧ IsInternalError (FromResponse r).1 = true) := by
  refine ⟨?_, ?_, ?_, ?_⟩
  · intro r h1 h2
    simp [FromResponse, h1, h2]
  · intro r m hc hb
    have he : FromResponse r = (some (Err.statusError (NewInternalError
        (Err.wrap "client error: reading server response: " (Err.basic m)))), true) := by
      simp [FromResponse, hc, hb]
    refine ⟨he, ?_⟩
    rw [he]; rfl
  · intro r m hc hb
    have he : FromResponse r = (some (Err.statusError (NewInternalError
        (Err.wrap "client error: unmarshalling server response: " (Err.basic m)))), true) := by
      simp [FromResponse, hc, hb]
    refine ⟨he, ?_⟩
    rw [he]; rfl
  · intro r v m hc hb hd
    have he : FromResponse r = (some (Err.statusError (NewInternalError
        (Err.wrap "client error: unmarshalling server response: " (Err.basic m)))), true) := by
      simp [FromResponse, hc, hb, hd]
    refine ⟨he, ?_⟩
    rw [he]; rfl

/-- C6 witness: the theorem applied at concrete responses with status code
500: a body read failure, a malformed body, a decode failure on a non-object
body, and a 200 response with a failing body read. -/
theorem claim6_witness :
    FromResponse { statusCode := 200, body := BodyResult.readErr "boom", retryAfter := "" }
      = (none, false)
    ∧ FromResponse { statusCode := 500, body := BodyResult.readErr "boom", retryAfter := "" }
      = (some (Err.statusError (NewInternalError
          (Err.wrap "client error: reading server response: " (Err.basic "boom")))), true)
    ∧ FromResponse { statusCode := 500, body := BodyResult.malformed "bad json", retryAfter := "" }
      = (some (Err.statusError (NewInternalError
          (Err.wrap "client error: unmarshalling server response: " (Err.basic "bad json")))), true)
    ∧ FromResponse { statusCode := 500, body := BodyResult.value (JValue.str "x"), retryAfter := "" }
      = (some (Err.statusError (NewInternalError
          (Err.wrap "client error: unmarshalling server response: "
            (Err.basic "cannot unmarshal value into Status")))), true) := by
  refine ⟨?_, ?_, ?_, ?_⟩
  · exact claim6_from_response_downgrades.1 _ (by decide) (by decide)
  · exact (claim6_from_response_downgrades.2.1 _ "boom" (by decide) rfl).1
  · exact (claim6_from_response_downgrades.2.2.1 _ "bad json" (by decide) rfl).1
  · exact (claim6_from_response_downgrades.2.2.2 _ (JValue.str "x")
      "cannot unmarshal value into Status" (by decide) rfl rfl).1

theorem empty_string_length : ("" : String).length = 0 := rfl

theorem goAtoi_pos_length {s : String} {n : Int} (h : goAtoi s = some n) : 0 < s.length := by
  by_contra hl
  have h0 : s.length = 0 := Nat.eq_zero_of_not_pos hl
  have he : s = "" := string_of_length_zero h0
  subst he
  simp [goAtoi, decDigits] at h

/-- C7 (amended): when FromResponse successfully decodes a Status from the
body, a non-empty Retry-After header that Atoi accepts (an optionally
signed decimal integer within the 64-bit range, so negative values
included) sets details.retryAfterSeconds to that integer reduced to signed
32 bits, overriding any body value and creating details when absent; a
missing header or one Atoi rejects is silently ignored and the decoded
status is returned unchanged. -/
theorem claim7_retry_after_folding :
    (∀ r : Response, ∀ v st, ¬ (200 ≤ r.statusCode ∧ r.statusCode ≤ 204) →
      r.body = BodyResult.value v → decodeStatus v = Except.ok st →
      goAtoi r.retryAfter = none →
      FromResponse r = (some (Err.statusError st), true))
    ∧ (∀ r : Response, ∀ v st, ∀ n : Int, ¬ (200 ≤ r.statusCode ∧ r.statusCode ≤ 204) →
      r.body = BodyResult.value v → decodeStatus v = Except.ok st →
      goAtoi r.retryAfter = some n → st.details = none →
      FromResponse r = (some (Err.statusError { st with details := some { name := "", uid := "", causes := [], retryAfterSeconds := toInt32 n } }), true))
    ∧ (∀ r : Response, ∀ v st, ∀ n : Int, ∀ d, ¬ (200 ≤ r.statusCode ∧ r.statusCode ≤ 204) →
      r.body = BodyResult.value v → decodeStatus v = Except.ok st →
      goAtoi r.retryAfter = some n → st.details = some d →
      FromResponse r = (some (Err.statusError { st with details := some { d with retryAfterSeconds := toInt32 n } }), true)) := by
  refine ⟨?_, ?_, ?_⟩
  · intro r v st hc hb hd ha
    by_cases hl : 0 < r.retryAfter.length
    · simp [FromResponse, hc, hb, hd, retryAfterSeconds, hl, ha]
    · simp [FromResponse, hc, hb, hd, retryAfterSeconds, hl]
  · intro r v st n hc hb hd ha hdet
    have hl : 0 < r.retryAfter.length := goAtoi_pos_length ha
    simp [FromResponse, hc, hb, hd, retryAfterSeconds, hl, ha, hdet]
  · intro r v st n d hc hb hd ha hdet
    have hl : 0 < r.retryAfter.length := goAtoi_pos_length ha
    simp [FromResponse, hc, hb, hd, retryAfterSeconds, hl, ha, hdet]

/-- C7 counterexample: the header -5 is not a non-negative integer, so the
claim requires it to be ignored and the decoded status returned unchanged;
the code instead accepts it through Atoi and stores -5 in the created
details. -/
theorem claim7_counterexample :
    FromResponse { statusCode := 500, body := BodyResult.value (JValue.obj []), retryAfter := "-5" }
      = (some (Err.statusError { status := "", code := 0, reason := "", message := "", details := some { name := "", uid := "", causes := [], retryAfterSeconds := -5 } }), true)
    ∧ FromResponse { statusCode := 500, body := BodyResult.value (JValue.obj []), retryAfter := "-5" }
      ≠ (some (Err.statusError { status := "", code := 0, reason := "", message := "", details := none }), true) := by
  exact ⟨by decide, by decide⟩

/-- C7 witness: the amended theorem applied at the header 7 on a
decodable detail-less body, giving retryAfterSeconds 7 in created details,
and at a missing header, leaving the decoded status unchanged. -/
theorem claim7_witness :
    FromResponse { statusCode := 500, body := BodyResult.value (JValue.obj []), retryAfter := "7" }
      = (some (Err.statusError { status := "", code := 0, reason := "", message := "", details := some { name := "", uid := "", causes := [], retryAfterSeconds := 7 } }), true)
    ∧ FromResponse { statusCode := 500, body := BodyResult.value (JValue.obj []), retryAfter := "" }
      = (some (Err.statusError { status := "", code := 0, reason := "", message := "", details := none }), true) := by
  constructor
  · rw [claim7_retry_after_folding.2.1
      { statusCode := 500, body := BodyResult.value (JValue.obj []), retryAfter := "7" }
      (JValue.obj []) { status := "", code := 0, reason := "", message := "", details := none }
      7 (by decide) rfl rfl rfl rfl]
    decide
  · exact claim7_retry_after_folding.1
      { statusCode := 500, body := BodyResult.value (JValue.obj []), retryAfter := "" }
      (JValue.obj []) { status := "", code := 0, reason := "", message := "", details := none }
      (by decide) rfl rfl rfl

theorem statusSuccess_length : StatusSuccess.length = 7 := rfl

theorem statusFailure_length : StatusFailure.length = 7 := rfl

/-- C8: for an error exposing the Status capability at top level,
ErrorToAPIStatus returns its Status with the status field normalized to
Failure when empty, and the code normalized from 0 to 200 under Success,
to 500 under Failure, and to 500 under any other status value, the latter
case only flagged on the fault-logging channel (the Bool component) and
still returned to the caller; for an error without the capability it
returns a fresh Failure, 500, Unknown status carrying the rendered error
text. -/
theorem claim8_error_to_api_status :
    (∀ s : Status, s.status = StatusSuccess →
      ErrorToAPIStatus (Err.statusError s)
        = ({ s with code := if s.code = 0 then 200 else s.code }, false))
    ∧ (∀ s : Status, s.status = StatusFailure ∨ s.status = "" →
      ErrorToAPIStatus (Err.statusError s)
        = ({ s with status := StatusFailure, code := if s.code = 0 then 500 else s.code }, false))
    ∧ (∀ s : Status, s.status ≠ "" → s.status ≠ StatusSuccess → s.status ≠ StatusFailure →
      ErrorToAPIStatus (Err.statusError s)
        = ({ s with code := if s.code = 0 then 500 else s.code }, true))
    ∧ (∀ e : Err, exposesStatus e = none →
      ErrorToAPIStatus e
        = ({ status := StatusFailure, code := 500, reason := StatusReasonUnknown,
             message := errRender e, details := none }, false)) := by
  refine ⟨?_, ?_, ?_, ?_⟩
  · intro s h
    obtain ⟨st, c, r, m, d⟩ := s
    simp only at h
    subst h
    simp [ErrorToAPIStatus, exposesStatus, statusSuccess_length]
  · intro s h
    obtain ⟨st, c, r, m, d⟩ := s
    simp only at h
    cases h with
    | inl h =>
      subst h
      simp [ErrorToAPIStatus, exposesStatus, statusFailure_length, StatusFailure, StatusSuccess]
    | inr h =>
      subst h
      simp [ErrorToAPIStatus, exposesStatus, empty_string_length, StatusFailure, StatusSuccess]
  · intro s h0 hS hF
    have hlen : s.status.length ≠ 0 := fun hl => h0 (string_of_length_zero hl)
    obtain ⟨st, c, r, m, d⟩ := s
    simp only at h0 hS hF hlen
    simp [ErrorToAPIStatus, exposesStatus, hlen, hS, hF]
  · intro e h
    cases e with
    | statusError s => exact Option.noConfusion h
    | unexpectedObjectError o => rfl
    | basic m => rfl
    | wrap p i => rfl

/-- C8 witness: the theorem applied at a Success status with unset code, an
empty status with unset code, an invalid status value, and an error without
the capability. -/
theorem claim8_witness :
    ErrorToAPIStatus (Err.statusError
        { status := "Success", code := 0, reason := "", message := "", details := none })
      = ({ status := "Success", code := 200, reason := "", message := "", details := none }, false)
    ∧ ErrorToAPIStatus (Err.statusError
        { status := "", code := 0, reason := "", message := "", details := none })
      = ({ status := "Failure", code := 500, reason := "", message := "", details := none }, false)
    ∧ ErrorToAPIStatus (Err.statusError
        { status := "Working", code := 0, reason := "", message := "", details := none })
      = ({ status := "Working", code := 500, reason := "", message := "", details := none }, true)
    ∧ ErrorToAPIStatus (Err.basic "oops")
      = ({ status := "Failure", code := 500, reason := "", message := "oops", details := none }, false) := by
  refine ⟨?_, ?_, ?_, ?_⟩
  · rw [claim8_error_to_api_status.1
      { status := "Success", code := 0, reason := "", message := "", details := none } rfl]
    decide
  · rw [claim8_error_to_api_status.2.1
      { status := "", code := 0, reason := "", message := "", details := none } (Or.inr rfl)]
    decide
  · rw [claim8_error_to_api_status.2.2.1
      { status := "Working", code := 0, reason := "", message := "", details := none }
      (by decide) (by decide) (by decide)]
    decide
  · exact claim8_error_to_api_status.2.2.2 (Err.basic "oops") rfl

/-- C9: encoding any well-formed Status in the wire format, serving it as
the body of a response with a status code outside the 200 to 204 range and
no Retry-After header, and applying FromResponse yields an error flagged
true whose StatusError carries a Status equal to the original field for
field. -/
theorem claim9_wire_round_trip :
    ∀ (s : Status) (r : Response), statusWF s = true →
      ¬ (200 ≤ r.statusCode ∧ r.statusCode ≤ 204) →
      r.body = BodyResult.value (encodeStatus s) → r.retryAfter = "" →
      FromResponse r = (some (Err.statusError s), true) := by
  intro s r hwf hc hb hh
  have hdec := decode_encode s hwf
  simp [FromResponse, hc, hb, hdec, retryAfterSeconds, hh, empty_string_length]

/-- C9 witness: the theorem applied at a concrete Status exercising every
field, with a 404 response and no header. -/
theorem claim9_witness :
    FromResponse
      { statusCode := 404
        body := BodyResult.value (encodeStatus
          { status := "Failure", code := 404, reason := "NotFound", message := "gone"
            details := some { name := "n", uid := "u"
                              causes := [{ type := "T", message := "cm", field := "f" }]
                              retryAfterSeconds := 3 } })
        retryAfter := "" }
      = (some (Err.statusError
          { status := "Failure", code := 404, reason := "NotFound", message := "gone"
            details := some { name := "n", uid := "u"
                              causes := [{ type := "T", message := "cm", field := "f" }]
                              retryAfterSeconds := 3 } }), true) := by
  exact claim9_wire_round_trip
    { status := "Failure", code := 404, reason := "NotFound", message := "gone"
      details := some { name := "n", uid := "u"
                        causes := [{ type := "T", message := "cm", field := "f" }]
                        retryAfterSeconds := 3 } }
    _ (by decide) (by decide) rfl rfl

end Apiutils
